import Mathlib

/-!
Shallow embedding of the WebXR session-management subsystem of the repository
(`packages/dev/core/src/XR/webXRSessionManager.ts` and the default-experience
orchestrator `webXRDefaultExperience.ts`), together with theorems checking the
specification's claims against the embedded code.

Modelling conventions:
- Promise-based operations become pure functions returning `Except String _`
  (a rejected promise / thrown value is `Except.error`).
- The external XR device (navigator.xr, `requestSession`,
  `requestReferenceSpace`) is a function parameter, so each theorem quantifies
  over all device behaviours.
- Opaque handles (sessions, scenes, providers, observers) become `Nat` ids;
  numeric quantities become `ℚ` (the computations involved — clamping and
  negation — are exact, so rationals are faithful to the source's doubles).
- Observable notifications and other effects are recorded in an ordered event
  log (`TraceEvent` / the `log` field), so ordering claims become claims about
  log contents.
-/

namespace XRVerify

/-- A reference space handle. `device ty id` is a raw space handed out by the
device for a request of type `ty`; `offsetSpace b x y z` is the result of
`getOffsetReferenceSpace` on `b` with an `XRRigidTransform` whose position is
`(x, y, z)` (mirrors `webXRSessionManager.ts` line 397-398). -/
inductive XRSpace where
  | device (ty : String) (id : Nat)
  | offsetSpace (base : XRSpace) (x y z : ℚ)
deriving DecidableEq, Repr

/-- Mirrors `XRReferenceSpace.getOffsetReferenceSpace(new XRRigidTransform(pos))`. -/
def XRSpace.getOffsetReferenceSpace (sp : XRSpace) (x y z : ℚ) : XRSpace :=
  .offsetSpace sp x y z

/-- The capability surface of a layer wrapper that the session manager touches:
`isFixedFoveationSupported` and the stored `fixedFoveation` level
(`Nullable<number>` in the source, hence `Option ℚ`). -/
structure WebXRLayerWrapper where
  isFixedFoveationSupported : Bool := false
  fixedFoveation : Option ℚ := none
deriving DecidableEq, Repr

/-- Ordered record of the observable side effects of session-manager
operations: notifications fired (with the data they carried and, for the
session-init notification, the value of the in-session flag at fire time),
state transitions of interest, and reference-space requests issued. -/
inductive TraceEvent where
  | sessionStored (id : Nat)
  | modeRecorded (mode : String)
  | sessionInitNotified (sessionId : Nat) (inXRSession : Bool)
  | inXRSessionSet (b : Bool)
  | endHandlerRegistered (once : Bool)
  | frameNotified (frameId : Nat)
  | refSpaceChangedNotified (sp : Option XRSpace)
  | sessionEndedNotified
  | framebufferRestored
  | rttProviderDisposed (p : Nat)
deriving DecidableEq, Repr

/-- State of a `WebXRSessionManager` (`webXRSessionManager.ts`): the fields the
claims depend on, with observers modelled as subscriber-id lists and an event
log for ordering properties. -/
structure SMState where
  session : Option Nat := none
  sessionMode : Option String := none
  inXRSession : Bool := false
  inXRFrameLoop : Bool := false
  currentFrame : Option Nat := none
  currentTimestamp : ℚ := -1
  referenceSpace : Option XRSpace := none
  baseReferenceSpace : Option XRSpace := none
  viewerReferenceSpace : Option XRSpace := none
  defaultHeightCompensation : ℚ := 17/10
  persistent : Bool := false
  isNative : Bool := false
  engineAttached : Bool := true
  renderTarget : Option Nat := none
  renderState : Option Nat := none
  baseLayerWrapper : Option WebXRLayerWrapper := none
  baseLayerRTTProvider : Option Nat := none
  endHandlerRegistered : Bool := false
  onXRFrameObservers : List Nat := []
  onXRReferenceSpaceChangedObservers : List Nat := []
  onXRSessionInitObservers : List Nat := []
  onXRSessionEndedObservers : List Nat := []
  log : List TraceEvent := []
deriving DecidableEq, Repr

/-- A fresh session manager, before any session work. -/
def emptySMState : SMState := {}

/-- Mirrors the JavaScript coercion `value || 0` on a `Nullable<number>`:
`null`/`undefined` and `0` are falsy and yield `0`; every other number is
itself. On rationals this is the identity extended by `none ↦ 0`. -/
def jsOrZero (value : Option ℚ) : ℚ :=
  match value with
  | none => 0
  | some x => if x = 0 then 0 else x

/-- The `fixedFoveation` setter (`webXRSessionManager.ts` lines 561-566):
clamps `value || 0` to `[0, 1]` and, when a base layer wrapper is present,
stores the clamped value on it; with no wrapper the write is dropped. -/
def setFixedFoveation (s : SMState) (value : Option ℚ) : SMState :=
  let val := max 0 (min 1 (jsOrZero value))
  match s.baseLayerWrapper with
  | some w => { s with baseLayerWrapper := some { w with fixedFoveation := some val } }
  | none => s

/-- The `fixedFoveation` getter (`webXRSessionManager.ts` lines 553-555):
`this._baseLayerWrapper?.fixedFoveation || null` — absent wrapper, absent
value, and a stored value of `0` (falsy) all collapse to `null`. -/
def getFixedFoveation (s : SMState) : Option ℚ :=
  match s.baseLayerWrapper with
  | none => none
  | some w =>
    match w.fixedFoveation with
    | none => none
    | some x => if x = 0 then none else some x

/-- The `referenceSpace` setter (`webXRSessionManager.ts` lines 130-133):
stores the written space in the backing field unmodified and notifies
`onXRReferenceSpaceChanged` with the stored value. This is the only write path
to the backing field in the source; `resetReferenceSpace` and
`setReferenceSpaceTypeAsync` both go through it. -/
def setReferenceSpace (s : SMState) (sp : Option XRSpace) : SMState :=
  { s with referenceSpace := sp, log := s.log ++ [.refSpaceChangedNotified sp] }

/-- Mirrors `resetReferenceSpace` (`webXRSessionManager.ts` lines 336-338):
`this.referenceSpace = this.baseReferenceSpace`, going through the setter. -/
def resetReferenceSpace (s : SMState) : SMState :=
  setReferenceSpace s s.baseReferenceSpace

/-- The first stage of `setReferenceSpaceTypeAsync` (`webXRSessionManager.ts`
lines 384-406): request the named type; on rejection fall back to a single
`viewer` request, offsetting a granted viewer space down by the height
compensation `h`; if the fallback is also rejected, throw the fatal string the
source throws. Returns the outcome together with the ordered list of
reference-space types requested. -/
def negotiateReferenceSpace (dev : String → Except String XRSpace) (h : ℚ)
    (referenceSpaceType : String) : Except String XRSpace × List String :=
  match dev referenceSpaceType with
  | .ok referenceSpace => (.ok referenceSpace, [referenceSpaceType])
  | .error _ =>
    match dev "viewer" with
    | .ok referenceSpace =>
      (.ok (referenceSpace.getOffsetReferenceSpace 0 (-h) 0), [referenceSpaceType, "viewer"])
    | .error _ =>
      (.error "XR initialization failed: required \"viewer\" reference space type not supported.",
        [referenceSpaceType, "viewer"])

/-- Full `setReferenceSpaceTypeAsync` (`webXRSessionManager.ts` lines
383-419): negotiate the space (with viewer fallback), then request the
parallel `viewer` space and store it in `viewerReferenceSpace` (a rejection
here propagates, as the source chain has no handler for it), then assign
`this.referenceSpace = this.baseReferenceSpace = referenceSpace` — the outer
assignment goes through the notifying setter. Returns the outcome, paired
with the ordered list of reference-space requests issued. -/
def setReferenceSpaceTypeAsync (dev : String → Except String XRSpace) (s : SMState)
    (referenceSpaceType : String := "local-floor") :
    Except String (SMState × XRSpace) × List String :=
  match negotiateReferenceSpace dev s.defaultHeightCompensation referenceSpaceType with
  | (.error e, reqs) => (.error e, reqs)
  | (.ok sp, reqs) =>
    match dev "viewer" with
    | .error e => (.error e, reqs ++ ["viewer"])
    | .ok viewerSp =>
      let s1 : SMState := { s with viewerReferenceSpace := some viewerSp }
      let s2 : SMState := setReferenceSpace { s1 with baseReferenceSpace := some sp } (some sp)
      (.ok (s2, sp), reqs ++ ["viewer"])

/-- Mirrors `initializeSessionAsync` (`webXRSessionManager.ts` lines 281-322).
On a granted session the success continuation runs, in source order: store the
session, record the mode, notify `onXRSessionInit` (the event records the
in-session flag's value at fire time), set `inXRSession := true`, register the
one-shot `end` listener. A rejected request propagates. -/
def initializeSessionAsync (requestSession : String → Except String Nat) (s : SMState)
    (xrSessionMode : String := "immersive-vr") : Except String SMState :=
  match requestSession xrSessionMode with
  | .error e => .error e
  | .ok sid =>
    let s1 : SMState := { s with session := some sid, log := s.log ++ [.sessionStored sid] }
    let s2 : SMState :=
      { s1 with sessionMode := some xrSessionMode,
                log := s1.log ++ [.modeRecorded xrSessionMode] }
    let s3 : SMState := { s2 with log := s2.log ++ [.sessionInitNotified sid s2.inXRSession] }
    let s4 : SMState := { s3 with inXRSession := true, log := s3.log ++ [.inXRSessionSet true] }
    .ok { s4 with endHandlerRegistered := true,
                  log := s4.log ++ [.endHandlerRegistered true] }

/-- The one-shot `end` listener body registered by `initializeSessionAsync`
(`webXRSessionManager.ts` lines 291-316): flip `inXRSession` false, notify
`onXRSessionEnded`, restore the engine's framebuffer state when an engine is
attached, dispose the render-target-texture provider only on native, and null
out both the provider and the layer-wrapper references. -/
def sessionEndHandler (s : SMState) : SMState :=
  let s1 : SMState := { s with inXRSession := false }
  let s2 : SMState := { s1 with log := s1.log ++ [.sessionEndedNotified] }
  let s3 : SMState := if s2.engineAttached then { s2 with log := s2.log ++ [.framebufferRestored] } else s2
  let s4 :=
    if s3.isNative then
      match s3.baseLayerRTTProvider with
      | some p => { s3 with log := s3.log ++ [.rttProviderDisposed p] }
      | none => s3
    else s3
  { s4 with baseLayerRTTProvider := none, baseLayerWrapper := none }

/-- Mirrors `exitXRAsync` (`webXRSessionManager.ts` lines 207-215): when a
session exists and the in-session flag is set, clear the flag and ask the
session to end; otherwise resolve immediately with no effect. -/
def exitXRAsync (s : SMState) : SMState :=
  if s.session.isSome && s.inXRSession then { s with inXRSession := false } else s

/-- Mirrors `dispose` (`webXRSessionManager.ts` lines 184-201): exit XR first
when in-session and (not persistent or `all`); always clear the frame,
reference-space-changed, and session-init observer lists; when not persistent
or `all`, also null the render target and render state and clear the
session-ended observers. -/
def dispose (s : SMState) (all : Bool := true) : SMState :=
  let s1 : SMState := if s.inXRSession && (!s.persistent || all) then exitXRAsync s else s
  let s2 : SMState :=
    { s1 with onXRFrameObservers := [],
              onXRReferenceSpaceChangedObservers := [],
              onXRSessionInitObservers := [] }
  if !s2.persistent || all then
    { s2 with renderTarget := none, renderState := none, onXRSessionEndedObservers := [] }
  else s2

/-- The capability surface of `navigator.xr` that the static support probe
touches: the two optional detection functions (each takes a session mode and
either rejects with a reason or resolves, possibly with `undefined`, hence
`Option Bool`) and the `native` flag. -/
structure XRSystemModel where
  isSessionSupported : Option (String → Except String (Option Bool)) := none
  supportsSession : Option (String → Except String (Option Bool)) := none
  native : Bool := false

/-- Mirrors the static `IsSessionSupportedAsync` (`webXRSessionManager.ts`
lines 477-497): absent `navigator.xr` resolves `false`; absent detection
function (`isSessionSupported || supportsSession`) resolves `false`; otherwise
the probe is called — a rejection is caught and resolves `false`, an
`undefined` result resolves `true`, and a boolean result resolves itself.
`isSessionSupportedAsync` (lines 329-331) delegates here unchanged. -/
def IsSessionSupportedAsync (navXR : Option XRSystemModel) (sessionMode : String) :
    Except String Bool :=
  match navXR with
  | none => .ok false
  | some xr =>
    match (match xr.isSessionSupported with
           | some f => some f
           | none => xr.supportsSession) with
    | none => .ok false
    | some functionToUse =>
      match functionToUse sessionMode with
      | .error _ => .ok false
      | .ok result =>
        .ok (match result with
             | none => true
             | some b => b)

/-- The per-device-frame `renderFunction` installed by `runXRRenderLoop`
(`webXRSessionManager.ts` lines 351-366): a no-op unless in-session with an
engine attached; otherwise stamps the frame snapshot and, when a frame handle
is present, raises the in-frame-loop flag, fires the frame notification, runs
the render pass, and lowers the flag again. -/
def xrFrameTick (s : SMState) (timestamp : ℚ) (xrFrame : Option Nat) : SMState :=
  if !s.inXRSession || !s.engineAttached then s
  else
    let s1 : SMState := { s with currentFrame := xrFrame, currentTimestamp := timestamp }
    match xrFrame with
    | none => s1
    | some f =>
      let s2 : SMState := { s1 with inXRFrameLoop := true }
      let s3 : SMState := { s2 with log := s2.log ++ [.frameNotified f] }
      { s3 with inXRFrameLoop := false }

/-- Observable steps taken by `WebXRDefaultExperience` methods
(`webXRDefaultExperience.ts`), in execution order. -/
inductive ExpAction where
  | disposeCalled (all : Bool)
  | baseExperienceDisposed (all : Bool)
  | inputDisposed
  | uiDisposed
  | renderTargetDisposed
  | baseExperienceMoved (scene : Nat)
  | sceneInitialized
  | sessionManagerMoveInvoked (scene : Nat)
deriving DecidableEq, Repr

/-- State of a `WebXRDefaultExperience` (`webXRDefaultExperience.ts`): the
sub-module handles, the persistence flag, the option toggles the claims touch,
and an ordered action log. -/
structure ExpState where
  persistent : Bool := false
  baseExperience : Option Nat := none
  input : Option Nat := none
  enterExitUI : Option Nat := none
  renderTarget : Option Nat := none
  pointerSelection : Option Nat := none
  teleportation : Option Nat := none
  nearInteraction : Option Nat := none
  disablePointerSelection : Bool := false
  disableTeleportation : Bool := false
  disableNearInteraction : Bool := false
  actions : List ExpAction := []
deriving DecidableEq, Repr

/-- Mirrors `WebXRDefaultExperience.dispose(all)`: `shouldClear` is
`!persistent || all`; the base experience and input are disposed whenever
present; the enter/exit UI and the render target are disposed only when
present and `shouldClear`. The source does not null the fields, so only the
action log changes. -/
def disposeExp (e : ExpState) (all : Bool := true) : ExpState :=
  let shouldClear := !e.persistent || all
  let e1 : ExpState := { e with actions := e.actions ++ [.disposeCalled all] }
  let e2 : ExpState :=
    match e1.baseExperience with
    | some _ => { e1 with actions := e1.actions ++ [.baseExperienceDisposed all] }
    | none => e1
  let e3 : ExpState :=
    match e2.input with
    | some _ => { e2 with actions := e2.actions ++ [.inputDisposed] }
    | none => e2
  let e4 : ExpState :=
    match e3.enterExitUI with
    | some _ => if shouldClear then { e3 with actions := e3.actions ++ [.uiDisposed] } else e3
    | none => e3
  match e4.renderTarget with
  | some _ => if shouldClear then { e4 with actions := e4.actions ++ [.renderTargetDisposed] } else e4
  | none => e4

/-- Mirrors `WebXRDefaultExperience._initializeScene()`: constructs the input
module; unless pointer selection is disabled, enables it and — unless
teleportation is disabled — throws when persistent (teleportation cannot be
configured at the engine level) and otherwise enables teleportation; unless
near interaction is disabled, enables it. A thrown string is returned next to
the state as mutated up to the throw point. -/
def initializeSceneExp (e : ExpState) : ExpState × Option String :=
  let e1 : ExpState := { e with input := some 0, actions := e.actions ++ [.sceneInitialized] }
  let afterPointer : ExpState × Option String :=
    if !e1.disablePointerSelection then
      let e2 : ExpState := { e1 with pointerSelection := some 0 }
      if !e2.disableTeleportation then
        if e2.persistent then
          (e2, some "Teleport option not suitable to define at engine level for persistent mode")
        else ({ e2 with teleportation := some 0 }, none)
      else (e2, none)
    else (e1, none)
  match afterPointer with
  | (e2, some err) => (e2, some err)
  | (e2, none) =>
    if !e2.disableNearInteraction then
      ({ e2 with nearInteraction := some 0 }, none)
    else (e2, none)

/-- Mirrors `WebXRDefaultExperience.moveXRToScene(nextScene, hookUp)`: the
very first statement throws when the experience is not persistent, before any
other statement runs, so the state is returned untouched next to the thrown
string. Otherwise: persistence-aware `dispose(false)`, migrate the base
experience, re-run scene initialization (propagating a throw), and delegate to
the session manager's migration. -/
def moveXRToSceneExp (e : ExpState) (nextScene : Nat) : ExpState × Option String :=
  if !e.persistent then
    (e, some "DefaultExperience must be instanced with CreatePersistentAsync() to move XR")
  else
    let e1 : ExpState := disposeExp e false
    let e2 : ExpState := { e1 with actions := e1.actions ++ [.baseExperienceMoved nextScene] }
    match initializeSceneExp e2 with
    | (e3, some err) => (e3, some err)
    | (e3, none) =>
      ({ e3 with actions := e3.actions ++ [.sessionManagerMoveInvoked nextScene] }, none)

/-- The JavaScript `value || 0` coercion is the identity on every number. -/
lemma jsOrZero_some (x : ℚ) : jsOrZero (some x) = x := by
  simp only [jsOrZero]
  split_ifs with h
  · exact h.symm
  · rfl

/-- The foveation setter with a wrapper present stores exactly the clamp of
the written value. -/
lemma setFixedFoveation_stores_clamped (s : SMState) (w : WebXRLayerWrapper) (v : ℚ) :
    setFixedFoveation { s with baseLayerWrapper := some w } (some v)
      = { s with
            baseLayerWrapper := some { w with fixedFoveation := some (max 0 (min 1 v)) } } := by
  simp [setFixedFoveation, jsOrZero_some]

/-- C5: every write to the `referenceSpace` property stores exactly the space
that was written and fires the reference-space-changed notification with that
space; the two other write paths in the source — `resetReferenceSpace` and the
final assignment of `setReferenceSpaceTypeAsync` — route through the setter,
so neither skips the notification. -/
theorem referenceSpace_write_notifies (s : SMState) (sp : Option XRSpace) :
    (setReferenceSpace s sp).referenceSpace = sp
  ∧ (setReferenceSpace s sp).log = s.log ++ [.refSpaceChangedNotified sp]
  ∧ resetReferenceSpace s = setReferenceSpace s s.baseReferenceSpace
  ∧ (∀ (dev : String → Except String XRSpace) (ty : String) (s' : SMState) (x : XRSpace),
      (setReferenceSpaceTypeAsync dev s ty).1 = .ok (s', x) →
      s'.referenceSpace = some x ∧ TraceEvent.refSpaceChangedNotified (some x) ∈ s'.log) := by
  refine ⟨rfl, rfl, rfl, ?_⟩
  intro dev ty s' x h
  unfold setReferenceSpaceTypeAsync at h
  rcases hneg : negotiateReferenceSpace dev s.defaultHeightCompensation ty with ⟨r, reqs⟩
  rw [hneg] at h
  cases r with
  | error e => simp at h
  | ok sp0 =>
    cases hv : dev "viewer" with
    | error e => rw [hv] at h; simp at h
    | ok v =>
      rw [hv] at h
      simp only [Except.ok.injEq, Prod.mk.injEq] at h
      obtain ⟨hs', hx⟩ := h
      subst hx
      subst hs'
      exact ⟨rfl, by simp [setReferenceSpace]⟩

/-- Device model granting every reference-space request with a fresh raw
space named after the requested type. -/
def devGrantAll : String → Except String XRSpace := fun ty => .ok (.device ty 0)

/-- C5 witness: a concrete successful `setReferenceSpaceTypeAsync` run stores
the negotiated space and its log contains the change notification for it. -/
theorem referenceSpace_write_notifies_witness :
    ({ emptySMState with
        viewerReferenceSpace := some (.device "viewer" 0),
        baseReferenceSpace := some (.device "local-floor" 0),
        referenceSpace := some (.device "local-floor" 0),
        log := [.refSpaceChangedNotified (some (.device "local-floor" 0))] } : SMState).referenceSpace
      = some (.device "local-floor" 0)
  ∧ TraceEvent.refSpaceChangedNotified (some (.device "local-floor" 0))
      ∈ ({ emptySMState with
            viewerReferenceSpace := some (.device "viewer" 0),
            baseReferenceSpace := some (.device "local-floor" 0),
            referenceSpace := some (.device "local-floor" 0),
            log := [.refSpaceChangedNotified (some (.device "local-floor" 0))] } : SMState).log :=
  (referenceSpace_write_notifies emptySMState none).2.2.2 devGrantAll "local-floor" _ _ rfl

/-- C7: for every numeric value written through the fixed-foveation setter
while a layer wrapper is present, the wrapper stores `max 0 (min 1 v)`;
`-1/2` stores `0`, `3/2` stores `1`, `2/5` stores `2/5`, and any value
already in `[0, 1]` is stored unchanged. -/
theorem fixedFoveation_setter_clamps (s : SMState) (w : WebXRLayerWrapper) (v : ℚ)
    (h0 : 0 ≤ v) (h1 : v ≤ 1) :
    (∀ u : ℚ, setFixedFoveation { s with baseLayerWrapper := some w } (some u)
        = { s with
              baseLayerWrapper := some { w with fixedFoveation := some (max 0 (min 1 u)) } })
  ∧ setFixedFoveation { s with baseLayerWrapper := some w } (some (-(1/2)))
      = { s with baseLayerWrapper := some { w with fixedFoveation := some 0 } }
  ∧ setFixedFoveation { s with baseLayerWrapper := some w } (some (3/2))
      = { s with baseLayerWrapper := some { w with fixedFoveation := some 1 } }
  ∧ setFixedFoveation { s with baseLayerWrapper := some w } (some (2/5))
      = { s with baseLayerWrapper := some { w with fixedFoveation := some (2/5) } }
  ∧ setFixedFoveation { s with baseLayerWrapper := some w } (some v)
      = { s with baseLayerWrapper := some { w with fixedFoveation := some v } } := by
  have hclamp : max (0:ℚ) (min 1 v) = v := by
    rw [min_eq_right h1, max_eq_right h0]
  refine ⟨fun u => setFixedFoveation_stores_clamped s w u, ?_, ?_, ?_, ?_⟩
  · rw [setFixedFoveation_stores_clamped]
    norm_num
  · rw [setFixedFoveation_stores_clamped]
    norm_num
  · rw [setFixedFoveation_stores_clamped]
    norm_num
  · rw [setFixedFoveation_stores_clamped, hclamp]

/-- C7 witness: writing the in-range value `2/5` on a fresh manager with a
default wrapper stores `2/5` unchanged. -/
theorem fixedFoveation_setter_clamps_witness :
    (0:ℚ) ≤ 2/5 ∧ (2/5:ℚ) ≤ 1
  ∧ setFixedFoveation { emptySMState with baseLayerWrapper := some {} } (some (2/5))
      = { emptySMState with
            baseLayerWrapper := some { ({} : WebXRLayerWrapper) with fixedFoveation := some (2/5) } } :=
  ⟨by norm_num, by norm_num,
    (fixedFoveation_setter_clamps emptySMState {} (2/5) (by norm_num) (by norm_num)).2.2.2.1⟩

/-- C10: with a foveation-supporting wrapper whose stored level is exactly 0,
the `fixedFoveation` getter returns `null` — the same sentinel as with no
wrapper at all or with an unsupported (absent) foveation value, so a stored 0
is indistinguishable from the unsupported case through this getter. -/
theorem fixedFoveation_zero_reads_null (s : SMState) (w : WebXRLayerWrapper) :
    getFixedFoveation { s with
        baseLayerWrapper := some { w with isFixedFoveationSupported := true,
                                          fixedFoveation := some 0 } } = none
  ∧ getFixedFoveation { s with baseLayerWrapper := none } = none
  ∧ getFixedFoveation { s with
        baseLayerWrapper := some { w with fixedFoveation := none } } = none := by
  refine ⟨?_, ?_, ?_⟩ <;> simp [getFixedFoveation]

/-- C2: when the request for the named type is rejected, the negotiation
requests `viewer` exactly once (its request trace is `[T, "viewer"]`, with no
further retries); if the viewer request succeeds, the negotiated space is the
raw viewer space offset by exactly `(0, -defaultHeightCompensation, 0)` (and
the full call succeeds with that space); if the viewer request is also
rejected, the full call fails fatally with the reference-space-unavailable
message. The compensation default on a fresh manager is `17/10 = 1.7`. -/
theorem referenceSpace_fallback_viewer_once (dev : String → Except String XRSpace)
    (s : SMState) (ty e : String) (hrej : dev ty = .error e) :
    (negotiateReferenceSpace dev s.defaultHeightCompensation ty).2 = [ty, "viewer"]
  ∧ (∀ v : XRSpace, dev "viewer" = .ok v →
      negotiateReferenceSpace dev s.defaultHeightCompensation ty
        = (.ok (XRSpace.offsetSpace v 0 (-s.defaultHeightCompensation) 0), [ty, "viewer"])
      ∧ ∃ s', (setReferenceSpaceTypeAsync dev s ty).1
          = .ok (s', XRSpace.offsetSpace v 0 (-s.defaultHeightCompensation) 0))
  ∧ (∀ e2 : String, dev "viewer" = .error e2 →
      setReferenceSpaceTypeAsync dev s ty
        = (.error
            "XR initialization failed: required \"viewer\" reference space type not supported.",
          [ty, "viewer"]))
  ∧ emptySMState.defaultHeightCompensation = 17/10 := by
  refine ⟨?_, ?_, ?_, rfl⟩
  · unfold negotiateReferenceSpace
    rw [hrej]
    cases dev "viewer" <;> rfl
  · intro v hv
    constructor
    · unfold negotiateReferenceSpace
      rw [hrej, hv]
      rfl
    · unfold setReferenceSpaceTypeAsync negotiateReferenceSpace
      rw [hrej, hv]
      exact ⟨_, rfl⟩
  · intro e2 hv
    unfold setReferenceSpaceTypeAsync negotiateReferenceSpace
    rw [hrej, hv]

/-- Device model that rejects every request except `viewer`. -/
def devViewerOnly : String → Except String XRSpace := fun ty =>
  if ty = "viewer" then .ok (.device "viewer" 7) else .error "NotSupportedError"

/-- C2 witness: with a device granting only `viewer`, a `local-floor` request
falls back to one viewer request and yields the viewer space shifted down by
the default height compensation. -/
theorem referenceSpace_fallback_viewer_once_witness :
    devViewerOnly "local-floor" = .error "NotSupportedError"
  ∧ devViewerOnly "viewer" = .ok (.device "viewer" 7)
  ∧ negotiateReferenceSpace devViewerOnly emptySMState.defaultHeightCompensation "local-floor"
      = (.ok (XRSpace.offsetSpace (.device "viewer" 7) 0
            (-emptySMState.defaultHeightCompensation) 0),
         ["local-floor", "viewer"]) :=
  ⟨rfl, rfl,
    ((referenceSpace_fallback_viewer_once devViewerOnly emptySMState "local-floor"
        "NotSupportedError" rfl).2.1 (.device "viewer" 7) rfl).1⟩

/-- C3: whenever `setReferenceSpaceTypeAsync` succeeds, the current and base
reference spaces both equal the single negotiated space, the parallel viewer
space was requested (the request trace ends with the extra `"viewer"` request,
issued before the result is finalized) and `viewerReferenceSpace` is non-null,
and the change notification for the negotiated space was fired. -/
theorem setReferenceSpaceType_success_state (dev : String → Except String XRSpace)
    (s : SMState) (ty : String)
    (hsucc : (setReferenceSpaceTypeAsync dev s ty).1.isOk = true) :
    ∃ s' sp, (setReferenceSpaceTypeAsync dev s ty).1 = .ok (s', sp)
  ∧ s'.referenceSpace = some sp
  ∧ s'.baseReferenceSpace = some sp
  ∧ s'.viewerReferenceSpace.isSome = true
  ∧ TraceEvent.refSpaceChangedNotified (some sp) ∈ s'.log
  ∧ (setReferenceSpaceTypeAsync dev s ty).2
      = (negotiateReferenceSpace dev s.defaultHeightCompensation ty).2 ++ ["viewer"] := by
  unfold setReferenceSpaceTypeAsync at hsucc ⊢
  rcases hneg : negotiateReferenceSpace dev s.defaultHeightCompensation ty with ⟨r, reqs⟩
  cases r with
  | error e =>
    rw [hneg] at hsucc
    simp [Except.isOk, Except.toBool] at hsucc
  | ok sp0 =>
    rcases hv : dev "viewer" with e | v
    · rw [hneg, hv] at hsucc
      simp [Except.isOk, Except.toBool] at hsucc
    · refine ⟨_, sp0, rfl, rfl, rfl, rfl, ?_, rfl⟩
      simp [setReferenceSpace]

/-- C3 witness: with a device granting everything, a `local-floor` request
succeeds, so the success theorem applies at this concrete input. -/
theorem setReferenceSpaceType_success_state_witness :
    (setReferenceSpaceTypeAsync devGrantAll emptySMState "local-floor").1.isOk = true
  ∧ ∃ s' sp, (setReferenceSpaceTypeAsync devGrantAll emptySMState "local-floor").1 = .ok (s', sp)
  ∧ s'.referenceSpace = some sp
  ∧ s'.baseReferenceSpace = some sp
  ∧ s'.viewerReferenceSpace.isSome = true
  ∧ TraceEvent.refSpaceChangedNotified (some sp) ∈ s'.log
  ∧ (setReferenceSpaceTypeAsync devGrantAll emptySMState "local-floor").2
      = (negotiateReferenceSpace devGrantAll
          emptySMState.defaultHeightCompensation "local-floor").2 ++ ["viewer"] :=
  ⟨rfl, setReferenceSpaceType_success_state devGrantAll emptySMState "local-floor" rfl⟩

/-- C1 (amended): for every successful `initializeSessionAsync(mode, init)`,
the manager performs, in this order: stores the session object, records the
mode, fires the session-initialized notification, flips the in-session flag to
true, and registers the one-shot end handler. The notification fires strictly
after the session object is stored and before any frame notification, but with
the in-session flag still holding its pre-call value (false on a fresh
manager), not yet true. No frame notification occurs during initialization,
and the frame tick is a no-op while the in-session flag is false, so frame
notifications can only follow it. -/
theorem initializeSession_order_amended (req : String → Except String Nat)
    (s : SMState) (mode : String) (sid : Nat) (h : req mode = .ok sid) :
    (∃ s', initializeSessionAsync req s mode = .ok s'
      ∧ s'.log = s.log ++ [.sessionStored sid, .modeRecorded mode,
                          .sessionInitNotified sid s.inXRSession,
                          .inXRSessionSet true, .endHandlerRegistered true]
      ∧ s'.session = some sid
      ∧ s'.sessionMode = some mode
      ∧ s'.inXRSession = true
      ∧ s'.endHandlerRegistered = true)
  ∧ (∀ f, TraceEvent.frameNotified f
        ∉ [TraceEvent.sessionStored sid, .modeRecorded mode,
           .sessionInitNotified sid s.inXRSession, .inXRSessionSet true,
           .endHandlerRegistered true])
  ∧ (∀ (s0 : SMState) (t : ℚ) (fr : Option Nat),
        s0.inXRSession = false → xrFrameTick s0 t fr = s0) := by
  refine ⟨?_, ?_, ?_⟩
  · unfold initializeSessionAsync
    rw [h]
    refine ⟨_, rfl, ?_, rfl, rfl, rfl, rfl⟩
    simp
  · intro f
    simp
  · intro s0 t fr h0
    simp [xrFrameTick, h0]

/-- C1 witness: a device granting session id 1 satisfies the hypothesis, so
the amended ordering theorem applies at this concrete input. -/
theorem initializeSession_order_amended_witness :
    (fun _ : String => (.ok 1 : Except String Nat)) "immersive-vr" = .ok 1
  ∧ ∃ s', initializeSessionAsync (fun _ => .ok 1) emptySMState "immersive-vr" = .ok s'
      ∧ s'.log = emptySMState.log ++ [.sessionStored 1, .modeRecorded "immersive-vr",
                          .sessionInitNotified 1 emptySMState.inXRSession,
                          .inXRSessionSet true, .endHandlerRegistered true]
      ∧ s'.session = some 1
      ∧ s'.sessionMode = some "immersive-vr"
      ∧ s'.inXRSession = true
      ∧ s'.endHandlerRegistered = true :=
  ⟨rfl, (initializeSession_order_amended (fun _ => .ok 1) emptySMState "immersive-vr" 1 rfl).1⟩

/-- C1 counterexample: on a fresh manager with a granting device, the run's
log shows the session-initialized notification carrying the in-session flag
value `false` — the flag is flipped to true only by the next event — so the
claim that the notification fires "with the in-session flag already true" is
false at this input. -/
theorem initializeSession_init_notified_before_flag_cex :
    initializeSessionAsync (fun _ => .ok 1) emptySMState "immersive-vr"
      = .ok { emptySMState with
                session := some 1, sessionMode := some "immersive-vr",
                inXRSession := true, endHandlerRegistered := true,
                log := [.sessionStored 1, .modeRecorded "immersive-vr",
                        .sessionInitNotified 1 false, .inXRSessionSet true,
                        .endHandlerRegistered true] }
  ∧ TraceEvent.sessionInitNotified 1 true
      ∉ [TraceEvent.sessionStored 1, .modeRecorded "immersive-vr",
         .sessionInitNotified 1 false, .inXRSessionSet true,
         .endHandlerRegistered true] := by
  constructor
  · rfl
  · simp

/-- C4: on a persistent manager, `dispose(false)` leaves the render-target
reference, the render-state reference, and the session-ended subscriber list
unchanged; on every manager `dispose(true)` clears all three; and every
dispose call clears the frame, reference-space-changed, and
session-initialized observer lists. -/
theorem dispose_persistence_contract (s : SMState) (hp : s.persistent = true) :
    (dispose s false).renderTarget = s.renderTarget
  ∧ (dispose s false).renderState = s.renderState
  ∧ (dispose s false).onXRSessionEndedObservers = s.onXRSessionEndedObservers
  ∧ (∀ s2 : SMState, (dispose s2 true).renderTarget = none
      ∧ (dispose s2 true).renderState = none
      ∧ (dispose s2 true).onXRSessionEndedObservers = [])
  ∧ (∀ (s2 : SMState) (b : Bool), (dispose s2 b).onXRFrameObservers = []
      ∧ (dispose s2 b).onXRReferenceSpaceChangedObservers = []
      ∧ (dispose s2 b).onXRSessionInitObservers = []) := by
  refine ⟨?_, ?_, ?_, ?_, ?_⟩
  · simp [dispose, hp]
  · simp [dispose, hp]
  · simp [dispose, hp]
  · intro s2
    unfold dispose exitXRAsync
    split_ifs <;> simp [apply_ite]
  · intro s2 b
    unfold dispose exitXRAsync
    split_ifs <;> simp [apply_ite]

/-- A concrete persistent session manager that is mid-session and holds a
render target, a render state, and one session-ended subscriber. -/
def persistentMidSessionSM : SMState :=
  { emptySMState with
      persistent := true, inXRSession := true, session := some 1,
      renderTarget := some 5, renderState := some 3,
      onXRSessionEndedObservers := [9] }

/-- C4 witness: the concrete persistent, mid-session manager keeps its render
target across `dispose(false)`. -/
theorem dispose_persistence_contract_witness :
    persistentMidSessionSM.persistent = true
  ∧ (dispose persistentMidSessionSM false).renderTarget
      = persistentMidSessionSM.renderTarget :=
  ⟨rfl, (dispose_persistence_contract persistentMidSessionSM rfl).1⟩

/-- C6: the support probe resolves to a boolean and never rejects: it is `ok`
for every capability object and mode, and resolves `false` when the capability
object is entirely absent, when neither detection function exists on it, and
when the chosen probing function rejects. -/
theorem isSessionSupported_never_rejects (navXR : Option XRSystemModel) (mode : String) :
    (IsSessionSupportedAsync navXR mode).isOk = true
  ∧ IsSessionSupportedAsync none mode = .ok false
  ∧ IsSessionSupportedAsync
      (some { isSessionSupported := none, supportsSession := none }) mode = .ok false
  ∧ (∀ (g : String → Except String (Option Bool)) (e : String), g mode = .error e →
      IsSessionSupportedAsync (some { isSessionSupported := some g }) mode = .ok false) := by
  refine ⟨?_, rfl, rfl, ?_⟩
  · unfold IsSessionSupportedAsync
    rcases navXR with _ | xr
    · rfl
    · rcases hf : xr.isSessionSupported with _ | f
      · simp only [hf]
        rcases hs : xr.supportsSession with _ | g
        · simp [hs, Except.isOk, Except.toBool]
        · simp only [hs]
          rcases hgm : g mode with e | r <;> simp [hgm, Except.isOk, Except.toBool]
      · simp only [hf]
        rcases hfm : f mode with e | r <;> simp [hfm, Except.isOk, Except.toBool]
  · intro g e hg
    simp [IsSessionSupportedAsync, hg]

/-- C6 witness: a probe whose detection function rejects still resolves
`false` at this concrete input. -/
theorem isSessionSupported_never_rejects_witness :
    (fun _ : String => (.error "SecurityError" : Except String (Option Bool))) "immersive-vr"
      = .error "SecurityError"
  ∧ IsSessionSupportedAsync
      (some { isSessionSupported := some (fun _ => .error "SecurityError") }) "immersive-vr"
      = .ok false :=
  ⟨rfl,
    (isSessionSupported_never_rejects
        (some { isSessionSupported := some (fun _ => .error "SecurityError") })
        "immersive-vr").2.2.2
      (fun _ => .error "SecurityError") "SecurityError" rfl⟩

/-- C9: when a session ends with a render-target-texture provider present,
the end handler's appended events contain the provider disposal if and only if
the manager runs in a native execution context (browser-composited providers
are never explicitly disposed), and in both contexts the provider and
layer-wrapper references are cleared and the in-session flag lowered. -/
theorem sessionEnd_native_dispose_contract (s : SMState) (p : Nat)
    (hp : s.baseLayerRTTProvider = some p) :
    (sessionEndHandler s).log
      = s.log ++ ([TraceEvent.sessionEndedNotified]
          ++ (if s.engineAttached then [TraceEvent.framebufferRestored] else [])
          ++ (if s.isNative then [TraceEvent.rttProviderDisposed p] else []))
  ∧ ((TraceEvent.rttProviderDisposed p
        ∈ (if s.isNative then [TraceEvent.rttProviderDisposed p]
           else ([] : List TraceEvent)))
      ↔ s.isNative = true)
  ∧ (sessionEndHandler s).baseLayerRTTProvider = none
  ∧ (sessionEndHandler s).baseLayerWrapper = none
  ∧ (sessionEndHandler s).inXRSession = false := by
  refine ⟨?_, ?_, ?_, ?_, ?_⟩
  · simp only [sessionEndHandler, hp]
    split_ifs <;> simp [List.append_assoc]
  · by_cases hn : s.isNative <;> simp [hn]
  · simp [sessionEndHandler]
  · simp [sessionEndHandler]
  · simp only [sessionEndHandler, hp]
    split_ifs <;> rfl

/-- A concrete native, in-session manager holding a provider and a wrapper. -/
def nativeInSessionSM : SMState :=
  { emptySMState with
      isNative := true, inXRSession := true, session := some 1,
      baseLayerRTTProvider := some 2, baseLayerWrapper := some {} }

/-- C9 witness: the concrete native manager's end handler logs the provider
disposal and clears both references. -/
theorem sessionEnd_native_dispose_contract_witness :
    nativeInSessionSM.baseLayerRTTProvider = some 2
  ∧ (sessionEndHandler nativeInSessionSM).baseLayerRTTProvider = none
  ∧ (sessionEndHandler nativeInSessionSM).baseLayerWrapper = none :=
  ⟨rfl, (sessionEnd_native_dispose_contract nativeInSessionSM 2 rfl).2.2.1,
    (sessionEnd_native_dispose_contract nativeInSessionSM 2 rfl).2.2.2.1⟩

/-- C8: calling `moveXRToScene` on a default experience that was not created
as persistent throws the error naming the required construction path
(`CreatePersistentAsync()`) from its very first statement, so the returned
state is exactly the prior state — its action log untouched: no dispose, no
base-experience migration, no scene re-initialization, and no session-manager
migration occurred. -/
theorem moveXRToScene_nonpersistent_rejects (e : ExpState) (ns : Nat)
    (h : e.persistent = false) :
    moveXRToSceneExp e ns
      = (e, some "DefaultExperience must be instanced with CreatePersistentAsync() to move XR") := by
  simp [moveXRToSceneExp, h]

/-- C8 witness: a default-constructed (non-persistent) experience rejects the
migration and is returned unmodified. -/
theorem moveXRToScene_nonpersistent_rejects_witness :
    ({} : ExpState).persistent = false
  ∧ moveXRToSceneExp {} 2
      = ({}, some "DefaultExperience must be instanced with CreatePersistentAsync() to move XR") :=
  ⟨rfl, moveXRToScene_nonpersistent_rejects {} 2 rfl⟩

end XRVerify
